import Mathlib

/-!
Shallow embedding of `src/mjc_env/door/door_open_env_v1.py` (class `DoorOpenEnv`),
a MuJoCo gymnasium environment for a robot arm opening a door.

The physics stepper (`mujoco.mj_step`), the scene file and numpy are external to the
repository; they are modelled as abstract data:
* `PhysData` carries the simulator quantities the environment reads each step
  (mocap target position, body positions of "hand" and "latch", joint velocities,
  active contact list);
* the effect of `mujoco.mj_step` is an arbitrary function `physics : PhysData → PhysData`
  applied after the mocap update of line 58;
* the scene's geometry name table is a `List (Option String)` indexed by geom id
  (`none` for unnamed geoms), and `mj_name2id` / the name scan of `_find_geom_ids`
  are modelled on it following the documented MuJoCo semantics
  (`mj_name2id` returns -1 when the name is absent).

Python floats are modelled as real numbers, Python ints as `ℤ`.
-/

open Classical

namespace DoorOpen

/-- Simulator data read by the environment on one step: the mocap target position
(`self.data.mocap_pos[0]`), the world positions `self.data.body("hand").xpos` and
`self.data.body("latch").xpos`, the joint velocity vector `self.data.qvel`, and the
contact list `self.data.contact` as pairs `(geom1, geom2)` of geom ids. -/
structure PhysData where
  mocap_pos : Fin 3 → ℝ
  hand_xpos : Fin 3 → ℝ
  latch_xpos : Fin 3 → ℝ
  qvel : ℕ → ℝ
  contacts : List (ℤ × ℤ)

/-- Episode state of `DoorOpenEnv`: `self.step_number`, `self.success_duration`,
`self.episode_len` and `self.excluded_geom_ids` (lines 38-47). -/
structure EnvState where
  step_number : ℤ
  success_duration : ℤ
  episode_len : ℤ
  excluded_geom_ids : List ℤ

/-- MuJoCo's `mj_name2id` restricted to the geom name table: index of the geom with
the given name, or -1 when no geom has that name (documented MuJoCo behaviour;
external library function). -/
def mj_name2id (names : List (Option String)) (nm : String) : ℤ :=
  match names.findIdx? (fun x => x = some nm) with
  | some i => (i : ℤ)
  | none => -1

/-- `re.match("^finger", geom_name)` of line 129 succeeds exactly when the name
starts with "finger" (as a character-list comparison). -/
def matchFinger (nm : String) : Bool :=
  "finger".data.isPrefixOf nm.data

/-- `DoorOpenEnv._find_geom_ids` (lines 121-132): the excluded geom ids are the id
returned by `mj_name2id(model, GEOM, "door_handle")` followed by every geom id whose
name exists and matches `re.match("^finger", name)`, in increasing id order. -/
def find_geom_ids (names : List (Option String)) : List ℤ :=
  let handle_id := mj_name2id names "door_handle"
  handle_id ::
    (List.range names.length).filterMap (fun geom_id =>
      match names.get? geom_id with
      | some (some nm) => if matchFinger nm then some ((geom_id : ℤ)) else none
      | _ => none)

/-- The loop body of `_find_geom_ids` without the handle id: the finger geom ids.
Used to describe the degraded result when "door_handle" is absent. -/
def fingerGeomIds (names : List (Option String)) : List ℤ :=
  (List.range names.length).filterMap (fun geom_id =>
    match names.get? geom_id with
    | some (some nm) => if matchFinger nm then some ((geom_id : ℤ)) else none
    | _ => none)

/-- A single contact passes the filter of line 113: both geom ids truthy (non-zero)
and neither in `excluded_geom_ids`. -/
def contactOk (excl : List ℤ) (c : ℤ × ℤ) : Bool :=
  c.1 != 0 && c.2 != 0 && !(excl.contains c.1) && !(excl.contains c.2)

/-- `DoorOpenEnv._process_collision` (lines 110-118): scan the contact list, return
`true` at the first contact passing the filter, `false` if none does. -/
def process_collision (excl : List ℤ) : List (ℤ × ℤ) → Bool
  | [] => false
  | c :: rest => if contactOk excl c then true else process_collision excl rest

/-- Euclidean distance `np.linalg.norm(hand.xpos - latch.xpos)` (line 90). -/
noncomputable def dist (d : PhysData) : ℝ :=
  Real.sqrt (∑ i : Fin 3, (d.hand_xpos i - d.latch_xpos i) ^ 2)

/-- `DoorOpenEnv._get_rew_done` (lines 88-108). Returns the reward, the done flag,
and the environment state with `self.success_duration` updated. The source computes
`done` from `self.success_duration` before updating it. -/
noncomputable def get_rew_done (s : EnvState) (d : PhysData) : ℝ × Bool × EnvState :=
  let rew_dist : ℝ := 1 / (1 + dist d)
  let pen_qvel : ℝ := -(∑ i ∈ Finset.Ico 3 10, |d.qvel i|)
  let is_collided := process_collision s.excluded_geom_ids d.contacts
  let pen_collision : ℝ := if is_collided then -1 else 0
  let success : Prop := dist d < 0.1
  let rew : ℝ := (if success then (1 : ℝ) else 0) * 10 + rew_dist
    - pen_qvel * 0.001 - pen_collision * 10
  let done : Bool := decide (s.success_duration > 20) || is_collided
  let s' : EnvState :=
    { s with success_duration := if success then s.success_duration + 1 else 0 }
  (rew, done, s')

/-- `DoorOpenEnv._get_obs` (lines 81-86): concatenation of the hand position and
the latch position, hand first. -/
def get_obs (d : PhysData) : Fin 6 → ℝ :=
  fun i => if h : (i : ℕ) < 3 then d.hand_xpos ⟨i, h⟩
           else d.latch_xpos ⟨(i : ℕ) - 3, by omega⟩

/-- Lines 58-59 of `DoorOpenEnv.step`: add `a[:3] / 100` to the mocap target and let
the physics stepper (`mujoco.mj_step`) advance the simulator state. Only components
0..2 of the action are read. -/
noncomputable def physStep (physics : PhysData → PhysData) (d : PhysData)
    (a : Fin 7 → ℝ) : PhysData :=
  physics { d with
    mocap_pos := fun i => d.mocap_pos i + a (Fin.castLE (by omega) i) / 100 }

/-- What `DoorOpenEnv.step` returns, plus the successor environment and simulator
states. -/
structure StepResult where
  obs : Fin 6 → ℝ
  rew : ℝ
  term : Bool
  trunc : Bool
  state : EnvState
  phys : PhysData

/-- `DoorOpenEnv.step` (lines 54-66): mocap update and physics step, increment
`self.step_number`, observation, reward/done via `_get_rew_done`, and
`trunc = self.step_number >= self.episode_len` with the incremented counter. -/
noncomputable def step (physics : PhysData → PhysData) (s : EnvState) (d : PhysData)
    (a : Fin 7 → ℝ) : StepResult :=
  let d' := physStep physics d a
  let s1 : EnvState := { s with step_number := s.step_number + 1 }
  let rds := get_rew_done s1 d'
  { obs := get_obs d'
    rew := rds.1
    term := rds.2.1
    trunc := decide (s1.step_number ≥ s1.episode_len)
    state := rds.2.2
    phys := d' }

/-- `DoorOpenEnv.reset_model` (lines 68-79): the only episode counter it touches is
`self.step_number`, set to 0. (The call to `set_state` re-seeds the simulator's
`qpos`/`qvel`, which live in the external physics state; `self.success_duration` is
not written.) -/
def reset_model (s : EnvState) : EnvState :=
  { s with step_number := 0 }

/-- The episode state established by `DoorOpenEnv.__init__` (lines 24-48):
`step_number = 0`, `success_duration = 0`, the configured `episode_len`, and the
excluded geom ids computed once by `_find_geom_ids`. -/
def initState (episode_len : ℤ) (names : List (Option String)) : EnvState :=
  { step_number := 0
    success_duration := 0
    episode_len := episode_len
    excluded_geom_ids := find_geom_ids names }

/-- Environment states reachable through the public interface: construction, reset,
and steps (with arbitrary external physics and inputs). -/
inductive Reachable : EnvState → Prop
  | init (episode_len : ℤ) (names : List (Option String)) :
      Reachable (initState episode_len names)
  | reset {s : EnvState} : Reachable s → Reachable (reset_model s)
  | step {s : EnvState} (physics : PhysData → PhysData) (d : PhysData)
      (a : Fin 7 → ℝ) : Reachable s → Reachable (step physics s d a).state

/-- Iterate `step` over a list of per-step external inputs, keeping the episode
state. -/
noncomputable def runState (physics : PhysData → PhysData) (s : EnvState) :
    List (PhysData × (Fin 7 → ℝ)) → EnvState
  | [] => s
  | (d, a) :: rest => runState physics (step physics s d a).state rest

/-- No step of the run raises the terminated flag. -/
noncomputable def stepsTermFree (physics : PhysData → PhysData) (s : EnvState) :
    List (PhysData × (Fin 7 → ℝ)) → Prop
  | [] => True
  | (d, a) :: rest =>
      (step physics s d a).term = false ∧
        stepsTermFree physics (step physics s d a).state rest

/-! Concrete inputs used to instantiate the theorems below. -/

/-- A geom name table with a door handle and one finger geom. -/
def names0 : List (Option String) := [some "door_handle", some "finger1"]

/-- A geom name table with no geom named "door_handle". -/
def namesNoHandle : List (Option String) := [some "floor", none, some "fingerA"]

/-- Simulator data with hand and latch at the origin, zero joint velocity and no
contacts: distance 0, so the success predicate holds. -/
def d0 : PhysData :=
  { mocap_pos := fun _ => 0
    hand_xpos := fun _ => 0
    latch_xpos := fun _ => 0
    qvel := fun _ => 0
    contacts := [] }

/-- Simulator data with the hand at (1, 0, 0) and the latch at the origin:
distance 1, so the success predicate fails. -/
def d1 : PhysData :=
  { d0 with hand_xpos := fun i => if i = 0 then 1 else 0 }

/-- Simulator data with the hand at (0.1, 0, 0) and the latch at the origin:
distance exactly 0.1, the boundary of the success predicate. -/
def dTenth : PhysData :=
  { d0 with hand_xpos := fun i => if i = 0 then 0.1 else 0 }

/-- Simulator data whose only contact is between geoms 1 and 1, both excluded under
`names0` (geom 1 is "finger1"). -/
def dColl : PhysData :=
  { d0 with contacts := [(1, 1)] }

/-- The zero action. -/
def a0 : Fin 7 → ℝ := fun _ => 0

/-- An action agreeing with `a0` on the translation components 0..2 and differing
on the orientation components 3..6. -/
def aOrient : Fin 7 → ℝ := fun i => if (i : ℕ) < 3 then 0 else 1

/-- The episode state after five consecutive successful steps (hand on latch) from a
freshly constructed environment: its success counter is 5. -/
noncomputable def s5 : EnvState :=
  (step id (step id (step id (step id (step id
    (initState 500 names0) d0 a0).state d0 a0).state d0 a0).state d0 a0).state
      d0 a0).state

/-! Helper lemmas: the components of `step`, read off definitionally. -/

theorem step_phys (p : PhysData → PhysData) (s : EnvState) (d : PhysData)
    (a : Fin 7 → ℝ) : (step p s d a).phys = physStep p d a := rfl

theorem step_rew (p : PhysData → PhysData) (s : EnvState) (d : PhysData)
    (a : Fin 7 → ℝ) :
    (step p s d a).rew =
      (if dist (physStep p d a) < 0.1 then (1 : ℝ) else 0) * 10
        + 1 / (1 + dist (physStep p d a))
        - (-(∑ i ∈ Finset.Ico 3 10, |(physStep p d a).qvel i|)) * 0.001
        - (if process_collision s.excluded_geom_ids (physStep p d a).contacts
            then (-1 : ℝ) else 0) * 10 := rfl

theorem step_term (p : PhysData → PhysData) (s : EnvState) (d : PhysData)
    (a : Fin 7 → ℝ) :
    (step p s d a).term =
      (decide (s.success_duration > 20)
        || process_collision s.excluded_geom_ids (physStep p d a).contacts) := rfl

theorem step_trunc (p : PhysData → PhysData) (s : EnvState) (d : PhysData)
    (a : Fin 7 → ℝ) :
    (step p s d a).trunc = decide (s.step_number + 1 ≥ s.episode_len) := rfl

theorem step_state (p : PhysData → PhysData) (s : EnvState) (d : PhysData)
    (a : Fin 7 → ℝ) :
    (step p s d a).state =
      { s with
        step_number := s.step_number + 1
        success_duration :=
          if dist (physStep p d a) < 0.1 then s.success_duration + 1 else 0 } := rfl

/-! Helper lemmas about the collision scan, the run, and the concrete inputs. -/

theorem process_collision_eq_any (excl : List ℤ) (l : List (ℤ × ℤ)) :
    process_collision excl l = l.any (contactOk excl) := by
  induction l with
  | nil => rfl
  | cons c rest ih =>
      simp only [process_collision, List.any_cons]
      split <;> simp_all

theorem contactOk_iff (excl : List ℤ) (c : ℤ × ℤ) :
    contactOk excl c = true ↔ c.1 ≠ 0 ∧ c.2 ≠ 0 ∧ c.1 ∉ excl ∧ c.2 ∉ excl := by
  simp [contactOk, and_assoc]

theorem runState_step_number (p : PhysData → PhysData)
    (inputs : List (PhysData × (Fin 7 → ℝ))) : ∀ s : EnvState,
    (runState p s inputs).step_number = s.step_number + inputs.length := by
  induction inputs with
  | nil => intro s; simp [runState]
  | cons x rest ih =>
      intro s
      cases x with
      | mk d a =>
          rw [runState, ih, step_state]
          simp only [List.length_cons]
          push_cast
          ring

theorem runState_episode_len (p : PhysData → PhysData)
    (inputs : List (PhysData × (Fin 7 → ℝ))) : ∀ s : EnvState,
    (runState p s inputs).episode_len = s.episode_len := by
  induction inputs with
  | nil => intro s; rfl
  | cons x rest ih =>
      intro s
      cases x with
      | mk d a => rw [runState, ih, step_state]

theorem dist_d0 : dist (physStep id d0 a0) = 0 := by
  simp [dist, physStep, d0]

theorem dist_d1 : dist (physStep id d1 a0) = 1 := by
  simp [dist, physStep, d1, d0, Fin.sum_univ_three]

theorem dist_dTenth : dist (physStep id dTenth a0) = 0.1 := by
  have h : (∑ i : Fin 3, ((physStep id dTenth a0).hand_xpos i
      - (physStep id dTenth a0).latch_xpos i) ^ 2) = (0.1 : ℝ) ^ 2 := by
    simp [physStep, dTenth, d0, Fin.sum_univ_three]
  rw [dist, h, Real.sqrt_sq (by norm_num)]

theorem step_d0_state (s : EnvState) :
    (step id s d0 a0).state =
      { s with
        step_number := s.step_number + 1
        success_duration := s.success_duration + 1 } := by
  rw [step_state]
  norm_num [dist_d0]

theorem mj_name2id_not_found (names : List (Option String)) (nm : String)
    (h : some nm ∉ names) : mj_name2id names nm = -1 := by
  have hnone : names.findIdx? (fun x => x = some nm) = none := by
    rw [List.findIdx?_eq_none_iff]
    intro x hx
    simp only [decide_eq_false_iff_not]
    intro hxe
    exact h (hxe ▸ hx)
  simp [mj_name2id, hnone]

/-! The claims. -/

/-- C1, counterexample: the state `s5` reached by five consecutive successful steps
from a fresh environment has success counter 5, and `reset_model` leaves it at 5
rather than resetting it to 0 — refuting the claim that both episode-state counters
are 0 after `reset_model`. -/
theorem C1_counterexample :
    Reachable s5 ∧ (reset_model s5).success_duration = 5
      ∧ (reset_model s5).success_duration ≠ 0 := by
  refine ⟨?_, ?_, ?_⟩
  · exact Reachable.step id d0 a0 (Reachable.step id d0 a0 (Reachable.step id d0 a0
      (Reachable.step id d0 a0 (Reachable.step id d0 a0 (Reachable.init 500 names0)))))
  · norm_num [reset_model, s5, step_d0_state, initState]
  · norm_num [reset_model, s5, step_d0_state, initState]

/-- C1, amended: `reset_model` resets the step counter to 0 but leaves the
consecutive-success counter unchanged; the success counter is 0 only because
`__init__` initializes it to 0 once at construction. -/
theorem C1_reset_counters :
    ∀ (s : EnvState) (len : ℤ) (names : List (Option String)),
      (reset_model s).step_number = 0
        ∧ (reset_model s).success_duration = s.success_duration
        ∧ (initState len names).success_duration = 0 :=
  fun _ _ _ => ⟨rfl, rfl, rfl⟩

/-- C2: the reward returned by every step equals
`10*success + 1/(1+dist) + 0.001*Σ|qvel[3:10]| + 10*collision`, where `dist` is the
Euclidean hand-latch distance after the physics step, `success = (dist < 0.1)` and
`collision` is the unfiltered-collision indicator: the velocity and collision terms
add positively, as the spec's sign-bug note demands. -/
theorem C2_reward_formula :
    ∀ (p : PhysData → PhysData) (s : EnvState) (d : PhysData) (a : Fin 7 → ℝ),
      (step p s d a).rew =
        (if dist ((step p s d a).phys) < 0.1 then (10 : ℝ) else 0)
          + 1 / (1 + dist ((step p s d a).phys))
          + 0.001 * (∑ i ∈ Finset.Ico 3 10, |((step p s d a).phys).qvel i|)
          + (if process_collision s.excluded_geom_ids ((step p s d a).phys).contacts
              then (10 : ℝ) else 0) := by
  intro p s d a
  rw [step_rew, step_phys]
  split_ifs <;> ring

/-- C3: the terminated flag of a step is true exactly when the consecutive-success
counter held when the check runs (its value entering the step; the source tests it
before updating it) strictly exceeds 20, or an unfiltered collision is detected on
the current step's contact list. -/
theorem C3_terminated_iff :
    ∀ (p : PhysData → PhysData) (s : EnvState) (d : PhysData) (a : Fin 7 → ℝ),
      ((step p s d a).term = true ↔
        20 < s.success_duration
          ∨ process_collision s.excluded_geom_ids ((step p s d a).phys).contacts
              = true) := by
  intro p s d a
  rw [step_term, step_phys]
  simp [decide_eq_true_iff]

/-- C4: the collision scan counts a contact only if both of its geom ids are
non-zero and neither is excluded (first conjunct: the scan returns true exactly when
such a contact exists), and it short-circuits at the first qualifying contact: the
result does not depend on what follows that contact (second conjunct). -/
theorem C4_collision_filter :
    ∀ (excl : List ℤ) (l : List (ℤ × ℤ)),
      (process_collision excl l = true ↔
        ∃ c ∈ l, c.1 ≠ 0 ∧ c.2 ≠ 0 ∧ c.1 ∉ excl ∧ c.2 ∉ excl)
      ∧ (∀ (l1 : List (ℤ × ℤ)) (c : ℤ × ℤ) (l2 l2' : List (ℤ × ℤ)),
          contactOk excl c = true →
          process_collision excl (l1 ++ c :: l2)
            = process_collision excl (l1 ++ c :: l2')) := by
  intro excl l
  constructor
  · rw [process_collision_eq_any]
    simp only [List.any_eq_true]
    constructor
    · rintro ⟨c, hc, hok⟩
      exact ⟨c, hc, (contactOk_iff excl c).mp hok⟩
    · rintro ⟨c, hc, hok⟩
      exact ⟨c, hc, (contactOk_iff excl c).mpr hok⟩
  · intro l1 c l2 l2' hc
    induction l1 with
    | nil => simp [process_collision, hc]
    | cons x xs ih =>
        simp only [List.cons_append, process_collision]
        split
        · rfl
        · exact ih

/-- C4 witness: geoms 2 and 3 are non-zero and not excluded under the excluded set
`[1]`, and the scan's result at that contact is independent of the rest of the
list. -/
theorem C4_collision_filter_witness :
    contactOk [(1 : ℤ)] (2, 3) = true
      ∧ process_collision [(1 : ℤ)] ([(0, 2)] ++ (2, 3) :: [(9, 9)])
          = process_collision [(1 : ℤ)] ([(0, 2)] ++ (2, 3) :: []) :=
  ⟨by decide,
    (C4_collision_filter [(1 : ℤ)] []).2 [(0, 2)] (2, 3) [(9, 9)] [] (by decide)⟩

/-- C5: when every contact of a step has both geom ids in the excluded set, the
collision indicator is false, and the step can only terminate through the success
counter — a contact between two excluded geometries never triggers termination. -/
theorem C5_excluded_contacts :
    ∀ (p : PhysData → PhysData) (s : EnvState) (d : PhysData) (a : Fin 7 → ℝ),
      (∀ c ∈ ((step p s d a).phys).contacts,
        c.1 ∈ s.excluded_geom_ids ∧ c.2 ∈ s.excluded_geom_ids) →
      process_collision s.excluded_geom_ids ((step p s d a).phys).contacts = false
        ∧ ((step p s d a).term = true ↔ 20 < s.success_duration) := by
  intro p s d a h
  have hfalse : process_collision s.excluded_geom_ids
      ((step p s d a).phys).contacts = false := by
    rw [process_collision_eq_any, List.any_eq_false]
    intro c hc
    have h1 := (h c hc).1
    simp [contactOk, h1]
  refine ⟨hfalse, ?_⟩
  rw [step_phys] at hfalse
  rw [step_term, hfalse]
  simp [decide_eq_true_iff]

/-- C5 witness: under the scene `names0` the excluded set is `[0, 1]`; a step whose
only contact is (1, 1) has no unfiltered collision and terminates only through the
success counter. -/
theorem C5_excluded_contacts_witness :
    process_collision (initState 500 names0).excluded_geom_ids
        ((step id (initState 500 names0) dColl a0).phys).contacts = false
      ∧ ((step id (initState 500 names0) dColl a0).term = true ↔
          20 < (initState 500 names0).success_duration) :=
  C5_excluded_contacts id (initState 500 names0) dColl a0 (by decide)

/-- C6: starting from a freshly reset episode (step counter 0), after running any
earlier steps none of which terminates, the next step's truncated flag is true
exactly when the number of steps taken reaches the configured episode length —
false on every step before the limit. -/
theorem C6_truncation :
    ∀ (p : PhysData → PhysData) (s0 : EnvState)
      (inputs : List (PhysData × (Fin 7 → ℝ))) (d : PhysData) (a : Fin 7 → ℝ),
      s0.step_number = 0 →
      stepsTermFree p s0 inputs →
      ((step p (runState p s0 inputs) d a).trunc = true ↔
        s0.episode_len ≤ (inputs.length : ℤ) + 1) := by
  intro p s0 inputs d a h0 _
  rw [step_trunc, runState_step_number, runState_episode_len, h0]
  simp only [ge_iff_le, decide_eq_true_eq]
  omega

/-- C6 witness: with episode length 2, the truncated flag of the second step of a
termination-free episode is true. -/
theorem C6_truncation_witness :
    (step id (runState id (initState 2 names0) [(d0, a0)]) d0 a0).trunc = true := by
  have h := C6_truncation id (initState 2 names0) [(d0, a0)] d0 a0 rfl
    ⟨by decide, trivial⟩
  rw [h]
  simp only [List.length_singleton]
  exact le_refl 2

/-- C7: the success counter is non-negative at every reachable state; a step whose
hand-latch distance is not below 0.1 — in particular a distance of exactly 0.1 —
resets it to 0, and a step whose distance is below 0.1 increments it by 1. -/
theorem C7_success_counter :
    (∀ s : EnvState, Reachable s → 0 ≤ s.success_duration)
      ∧ (∀ (p : PhysData → PhysData) (s : EnvState) (d : PhysData) (a : Fin 7 → ℝ),
          ¬ dist ((step p s d a).phys) < 0.1 →
          (step p s d a).state.success_duration = 0)
      ∧ (∀ (p : PhysData → PhysData) (s : EnvState) (d : PhysData) (a : Fin 7 → ℝ),
          dist ((step p s d a).phys) = 0.1 →
          (step p s d a).state.success_duration = 0)
      ∧ (∀ (p : PhysData → PhysData) (s : EnvState) (d : PhysData) (a : Fin 7 → ℝ),
          dist ((step p s d a).phys) < 0.1 →
          (step p s d a).state.success_duration = s.success_duration + 1) := by
  refine ⟨?_, ?_, ?_, ?_⟩
  · intro s h
    induction h with
    | init len names => exact le_refl 0
    | reset h ih => exact ih
    | step p d a h ih =>
        simp only [step_state]
        split_ifs
        · linarith
        · exact le_refl 0
  · intro p s d a h
    rw [step_phys] at h
    simp [step_state, h]
  · intro p s d a h
    rw [step_phys] at h
    simp [step_state, h]
  · intro p s d a h
    rw [step_phys] at h
    simp [step_state, h]

/-- C7 witness: the counter is 0 (hence non-negative) at construction; a step at
distance 1 resets it, a step at distance exactly 0.1 resets it, and a step at
distance 0 increments it. -/
theorem C7_success_counter_witness :
    0 ≤ (initState 500 names0).success_duration
      ∧ (step id (initState 500 names0) d1 a0).state.success_duration = 0
      ∧ (step id (initState 500 names0) dTenth a0).state.success_duration = 0
      ∧ (step id (initState 500 names0) d0 a0).state.success_duration
          = (initState 500 names0).success_duration + 1 :=
  ⟨C7_success_counter.1 _ (Reachable.init 500 names0),
   C7_success_counter.2.1 id _ d1 a0 (by rw [step_phys, dist_d1]; norm_num),
   C7_success_counter.2.2.1 id _ dTenth a0 (by rw [step_phys]; exact dist_dTenth),
   C7_success_counter.2.2.2 id _ d0 a0 (by rw [step_phys, dist_d0]; norm_num)⟩

/-- C8: the orientation components 3..6 of the action are unused — two steps from
the same state whose actions agree on components 0..2 produce identical results
(observation, reward, terminated, truncated, state, and simulator data). -/
theorem C8_orientation_unused :
    ∀ (p : PhysData → PhysData) (s : EnvState) (d : PhysData) (a a' : Fin 7 → ℝ),
      (∀ i : Fin 7, (i : ℕ) < 3 → a i = a' i) →
      step p s d a = step p s d a' := by
  intro p s d a a' h
  have hp : physStep p d a = physStep p d a' := by
    simp only [physStep]
    congr 2
    funext i
    rw [h (Fin.castLE (by omega) i) (by simp [Fin.coe_castLE])]
  simp only [step, hp]

/-- C8 witness: the zero action and the action that is 1 on the orientation
components give identical step results. -/
theorem C8_orientation_unused_witness :
    step id (initState 500 names0) d0 a0 = step id (initState 500 names0) d0 aOrient :=
  C8_orientation_unused id (initState 500 names0) d0 a0 aOrient (by
    intro i hi
    simp [a0, aOrient, hi])

/-- C9, counterexample: on a scene with no geom named "door_handle", construction
completes — `initState` is total — and the excluded set is the silently degraded
`[-1, 2]` (MuJoCo's not-found sentinel plus the finger geom), refuting the claim
that initialization fails with a fatal error. -/
theorem C9_counterexample :
    (initState 500 namesNoHandle).excluded_geom_ids = [-1, 2] := by
  decide

/-- C9, amended: when no geom is named "door_handle", `_find_geom_ids` does not
fail; it returns the excluded set headed by the sentinel -1 returned by
`mj_name2id`, silently degrading the excluded set (no non-negative geom id is
excluded on the handle's behalf). -/
theorem C9_missing_handle :
    ∀ names : List (Option String), some "door_handle" ∉ names →
      find_geom_ids names = -1 :: fingerGeomIds names
        ∧ (-1 : ℤ) ∈ find_geom_ids names := by
  intro names h
  have hm : mj_name2id names "door_handle" = -1 := mj_name2id_not_found names _ h
  constructor
  · simp [find_geom_ids, fingerGeomIds, hm]
  · simp [find_geom_ids, hm]

/-- C9 witness: the handle-less name table `namesNoHandle` completes initialization
with the degraded excluded set. -/
theorem C9_missing_handle_witness :
    find_geom_ids namesNoHandle = -1 :: fingerGeomIds namesNoHandle
      ∧ (-1 : ℤ) ∈ find_geom_ids namesNoHandle :=
  C9_missing_handle namesNoHandle (by decide)

/-- C10: the reward of every step is at least the distance term `1/(1+dist)` and is
strictly positive — all four terms are non-negative as computed (the "penalties"
enter positively) and the distance term is strictly positive. -/
theorem C10_reward_positive :
    ∀ (p : PhysData → PhysData) (s : EnvState) (d : PhysData) (a : Fin 7 → ℝ),
      1 / (1 + dist ((step p s d a).phys)) ≤ (step p s d a).rew
        ∧ 0 < (step p s d a).rew := by
  intro p s d a
  rw [step_rew, step_phys]
  have hd : (0 : ℝ) ≤ dist (physStep p d a) := Real.sqrt_nonneg _
  have h1 : (0 : ℝ) < 1 / (1 + dist (physStep p d a)) :=
    div_pos one_pos (by linarith)
  have hq : (0 : ℝ) ≤ ∑ i ∈ Finset.Ico 3 10, |(physStep p d a).qvel i| :=
    Finset.sum_nonneg fun i _ => abs_nonneg _
  constructor
  · split_ifs <;> nlinarith
  · split_ifs <;> nlinarith

end DoorOpen
